import Mathlib

/-
Verification of the yadisk_api client library.

Shallow embedding of `yadisk_api/requester.py` and `yadisk_api/client.py`:
the request executor (URL prefixing, auth header, status classification),
the async-completion poller, query-string serialization, single-file upload
with the skip-if-identical check, and directory upload.

External collaborators (the `requests` transport, the filesystem, the server)
are modelled as explicit inputs/oracles; side effects (HTTP calls, sleeps)
are modelled as explicit event traces.
-/

set_option autoImplicit false

namespace YadiskApi

/-! ### Error taxonomy -/

/-- Modelled from the spec: the `errors` module (class definitions) is not under
`src/`; only `requester.py`'s `_CODE_TO_ERROR` table and `client.py`'s handlers
refer to it.  Per the spec's status-code → error-kind table, the kinds are
Unauthorized, Forbidden, NotFound, DiskPathConflict (class `DiskPathError`),
PreconditionFailed, PayloadTooLarge, InternalServerError, ServiceUnavailable,
InsufficientStorage, and the generic RequestError. -/
inductive ErrorKind where
  | Unauthorized
  | Forbidden
  | NotFound
  | DiskPathConflict
  | PreconditionFailed
  | PayloadTooLarge
  | InternalServerError
  | ServiceUnavailable
  | InsufficientStorage
  | RequestError
deriving DecidableEq

/-! ### Request executor (`requester.py`) -/

/-- `_CODE_TO_ERROR` from `requester.py`: the fixed dict from HTTP status code
to error class, as a partial map (entries in the dict's order). -/
def codeToError (code : Nat) : Option ErrorKind :=
  if code = 401 then some ErrorKind.Unauthorized
  else if code = 403 then some ErrorKind.Forbidden
  else if code = 409 then some ErrorKind.DiskPathConflict
  else if code = 404 then some ErrorKind.NotFound
  else if code = 412 then some ErrorKind.PreconditionFailed
  else if code = 413 then some ErrorKind.PayloadTooLarge
  else if code = 500 then some ErrorKind.InternalServerError
  else if code = 503 then some ErrorKind.ServiceUnavailable
  else if code = 507 then some ErrorKind.InsufficientStorage
  else none

/-- `OK_STATUSES` from `requester.py`. -/
def OK_STATUSES : List Nat := [200, 201, 202, 204]

/-- A response envelope: numeric status code and parsed JSON body, modelled as
an association list of string fields (the only fields the client reads are
strings: `message`, `href`, `status`, `md5`). -/
structure Response where
  status_code : Nat
  body : List (String × String)
deriving DecidableEq

/-- `response.json()[k]` as a partial lookup (first binding wins, as in a dict). -/
def getField (r : Response) (k : String) : Option String :=
  (r.body.find? (fun p => p.1 = k)).map Prod.snd

/-- Outcome of `Requester.wrap`'s status-code classification: the response is
returned, an error is raised, or `response.json()['message']` raises a
`KeyError` because the body has no `message` field. -/
inductive WrapResult where
  | ok (r : Response)
  | error (k : ErrorKind) (message : String)
  | keyError
deriving DecidableEq

/-- The status-classification tail of `Requester.wrap.wrapped` from
`requester.py`: success statuses pass the response through; otherwise the
body's `message` is extracted and the error mapped from `_CODE_TO_ERROR`
(or the generic `RequestError`) is raised with it. -/
def wrapClassify (r : Response) : WrapResult :=
  if r.status_code ∈ OK_STATUSES then WrapResult.ok r
  else
    match getField r "message" with
    | Option.none => WrapResult.keyError
    | some msg =>
      match codeToError r.status_code with
      | Option.none => WrapResult.error ErrorKind.RequestError msg
      | some k => WrapResult.error k msg

/-- The spec's status-code → error-kind table, written from the spec's own
words (`401→Unauthorized, …; anything else → generic RequestError`), to be
compared against the executor's behaviour. -/
def specErrorTable (code : Nat) : ErrorKind :=
  if code = 401 then ErrorKind.Unauthorized
  else if code = 403 then ErrorKind.Forbidden
  else if code = 404 then ErrorKind.NotFound
  else if code = 409 then ErrorKind.DiskPathConflict
  else if code = 412 then ErrorKind.PreconditionFailed
  else if code = 413 then ErrorKind.PayloadTooLarge
  else if code = 500 then ErrorKind.InternalServerError
  else if code = 503 then ErrorKind.ServiceUnavailable
  else if code = 507 then ErrorKind.InsufficientStorage
  else ErrorKind.RequestError

/-- `Requester._disk_url`. -/
def diskUrl : String := "https://cloud-api.yandex.net/v1/"

/-- A request as seen by `Requester.wrap.wrapped` before dispatch: the url,
the caller-supplied headers, and the `absolute_url` / `without_auth` flags. -/
structure RequestIn where
  url : String
  headers : List (String × String)
  absolute_url : Bool
  without_auth : Bool
deriving DecidableEq

/-- Python dict assignment `d[k] = v` on an association list: replaces any
existing binding of `k` and appends the new one. -/
def setKey (l : List (String × String)) (k v : String) : List (String × String) :=
  (l.filter (fun p => p.1 ≠ k)) ++ [(k, v)]

/-- The request-building head of `Requester.wrap.wrapped` from `requester.py`:
prefix the base endpoint unless `absolute_url`, and set the `Authorization`
header to `OAuth <token>` unless `without_auth`.  Returns the final url and
headers handed to the transport. -/
def buildRequest (token : String) (req : RequestIn) : String × List (String × String) :=
  let url := if req.absolute_url then req.url else diskUrl ++ req.url
  let headers :=
    if req.without_auth then req.headers
    else setKey req.headers "Authorization" ("OAuth " ++ token)
  (url, headers)

theorem mem_setKey (l : List (String × String)) (k v : String) :
    (k, v) ∈ setKey l k v := by
  simp [setKey]

/-! ### Theorems: executor classification (C1, C2) and request building (C7) -/

/-- C1: for every response whose status code is not in {200, 201, 202, 204}
and whose body carries a `message` field, the executor raises exactly the
error kind given by the spec's fixed table (401→Unauthorized, 403→Forbidden,
404→NotFound, 409→DiskPathConflict, 412→PreconditionFailed,
413→PayloadTooLarge, 500→InternalServerError, 503→ServiceUnavailable,
507→InsufficientStorage, anything else → generic RequestError), carrying
that message. -/
theorem c1_error_classification (r : Response) (msg : String)
    (hok : r.status_code ∉ OK_STATUSES)
    (hmsg : getField r "message" = some msg) :
    wrapClassify r = WrapResult.error (specErrorTable r.status_code) msg := by
  unfold wrapClassify
  rw [if_neg hok, hmsg]
  by_cases h1 : r.status_code = 401
  · simp [codeToError, specErrorTable, h1]
  by_cases h2 : r.status_code = 403
  · simp [codeToError, specErrorTable, h1, h2]
  by_cases h3 : r.status_code = 404
  · simp [codeToError, specErrorTable, h1, h2, h3]
  by_cases h4 : r.status_code = 409
  · simp [codeToError, specErrorTable, h1, h2, h3, h4]
  by_cases h5 : r.status_code = 412
  · simp [codeToError, specErrorTable, h1, h2, h3, h4, h5]
  by_cases h6 : r.status_code = 413
  · simp [codeToError, specErrorTable, h1, h2, h3, h4, h5, h6]
  by_cases h7 : r.status_code = 500
  · simp [codeToError, specErrorTable, h1, h2, h3, h4, h5, h6, h7]
  by_cases h8 : r.status_code = 503
  · simp [codeToError, specErrorTable, h1, h2, h3, h4, h5, h6, h7, h8]
  by_cases h9 : r.status_code = 507
  · simp [codeToError, specErrorTable, h1, h2, h3, h4, h5, h6, h7, h8, h9]
  simp [codeToError, specErrorTable, h1, h2, h3, h4, h5, h6, h7, h8, h9]

theorem c1_error_classification_witness :
    wrapClassify ⟨401, [("message", "m")]⟩ =
      WrapResult.error (specErrorTable 401) "m" :=
  c1_error_classification ⟨401, [("message", "m")]⟩ "m" (by decide) rfl

/-- C2: for every response whose status code is in {200, 201, 202, 204}, the
executor returns the response envelope unchanged without raising, regardless
of the shape or content of the response body. -/
theorem c2_success_passthrough (r : Response)
    (h : r.status_code ∈ OK_STATUSES) :
    wrapClassify r = WrapResult.ok r := by
  unfold wrapClassify
  rw [if_pos h]

theorem c2_success_passthrough_witness :
    wrapClassify ⟨202, [("weird", "body")]⟩ =
      WrapResult.ok ⟨202, [("weird", "body")]⟩ :=
  c2_success_passthrough ⟨202, [("weird", "body")]⟩ (by decide)

/-- C7: for every request issued by the executor, if `absolute_url` is false
the dispatched URL is `https://cloud-api.yandex.net/v1/` ++ path (otherwise
the path is used as-is), and unless `without_auth` is true the dispatched
headers contain `Authorization: OAuth <token>`. -/
theorem c7_request_building (token : String) (req : RequestIn) :
    (req.absolute_url = false → (buildRequest token req).1 = diskUrl ++ req.url)
    ∧ (req.absolute_url = true → (buildRequest token req).1 = req.url)
    ∧ (req.without_auth = false →
        ("Authorization", "OAuth " ++ token) ∈ (buildRequest token req).2) := by
  refine ⟨fun habs => ?_, fun habs => ?_, fun hauth => ?_⟩
  · simp [buildRequest, habs]
  · simp [buildRequest, habs]
  · simp only [buildRequest, hauth, if_false, Bool.false_eq_true]
    exact mem_setKey req.headers "Authorization" ("OAuth " ++ token)

theorem c7_request_building_witness :
    (false = false →
      (buildRequest "tok" ⟨"disk/", [], false, false⟩).1 = diskUrl ++ "disk/")
    ∧ (false = true → (buildRequest "tok" ⟨"disk/", [], false, false⟩).1 = "disk/")
    ∧ (false = false →
        ("Authorization", "OAuth " ++ "tok") ∈
          (buildRequest "tok" ⟨"disk/", [], false, false⟩).2) :=
  c7_request_building "tok" ⟨"disk/", [], false, false⟩

/-! ### Async-completion poller (`YandexDisk._waiting_for_finish`) -/

/-- `YandexDisk._SLEEP` from `client.py`. -/
def YandexDisk_SLEEP : Nat := 3

/-- Observable effects of the poll loop: a `time.sleep(n)` call, or a GET
dispatched through the requester (always `absolute_url=True`, authenticated). -/
inductive Event where
  | sleepFor (seconds : Nat)
  | pollGet (req : RequestIn)
deriving DecidableEq

/-- Outcome of `_waiting_for_finish` on a finite oracle of poll responses:
the method returned a response; the loop is still polling when the oracle is
exhausted (the code has no timeout, so this stands for continued looping);
`response.json()[key]` raised a `KeyError`; or an error raised by the
executor (or re-raised by the loop) propagated out of the wait. -/
inductive WaitOutcome where
  | done (r : Response)
  | looping
  | keyError (key : String)
  | raised (k : ErrorKind) (msg : String)
deriving DecidableEq

/-- `sleep = sleep or self._SLEEP` from `_waiting_for_finish`: Python `or`
falls back to the default when the supplied value is falsy (`None` or `0`). -/
def effectiveSleep (sleep : Option Nat) : Nat :=
  match sleep with
  | Option.none => YandexDisk_SLEEP
  | some s => if s = 0 then YandexDisk_SLEEP else s

/-- Is a poll response terminal: HTTP 200 with body `status == "success"`. -/
def isSuccessPoll (r : Response) : Bool :=
  r.status_code == 200 && getField r "status" == some "success"

/-- Does a poll response send the loop around again: the executor classifies
it as a success status (200, 201, 202 or 204 — anything else raises out of
the loop), and it is not terminal — either its status is not 200 (Python's
`and` short-circuits before the body lookup), or its body carries a `status`
field different from `"success"` (a 200 body without `status` raises
`KeyError` instead of looping). -/
def isRetryPoll (r : Response) : Bool :=
  decide (r.status_code ∈ OK_STATUSES) &&
    (if r.status_code == 200 then
      match getField r "status" with
      | some s => decide (s ≠ "success")
      | Option.none => false
    else true)

/-- The `while True` loop of `_waiting_for_finish`: each iteration sleeps and
issues `self._requester.get(check_status_url, absolute_url=True)` (the
successive transport answers are given by the oracle list `polls`).  The GET
goes through `Requester.wrap`, so a non-success status raises its classified
error out of the loop (and a missing `message` raises `KeyError`); a
response the executor passes through is terminal when it is HTTP 200 with
body `status == "success"` (a 200 body without a `status` field raises
`KeyError`); anything else loops again.  Produces the event trace and
outcome. -/
def pollLoop (url : String) (d : Nat) : List Response → List Event × WaitOutcome
  | [] => ([], WaitOutcome.looping)
  | r :: rest =>
    let evs := [Event.sleepFor d, Event.pollGet ⟨url, [], true, false⟩]
    match wrapClassify r with
    | WrapResult.error k msg => (evs, WaitOutcome.raised k msg)
    | WrapResult.keyError => (evs, WaitOutcome.keyError "message")
    | WrapResult.ok r2 =>
      if r2.status_code == 200 then
        match getField r2 "status" with
        | Option.none => (evs, WaitOutcome.keyError "status")
        | some s =>
          if s == "success" then (evs, WaitOutcome.done r2)
          else
            let next := pollLoop url d rest
            (evs ++ next.1, next.2)
      else
        let next := pollLoop url d rest
        (evs ++ next.1, next.2)

/-- `YandexDisk._waiting_for_finish` from `client.py`: when `wait_for_finish`
and the response status is 202, read the polling URL from the body's `href`
and loop; otherwise return the response unchanged with no effects. -/
def waitingForFinish (response : Response) (wait_for_finish : Bool)
    (sleep : Option Nat) (polls : List Response) : List Event × WaitOutcome :=
  if wait_for_finish && (response.status_code == 202) then
    match getField response "href" with
    | Option.none => ([], WaitOutcome.keyError "href")
    | some url => pollLoop url (effectiveSleep sleep) polls
  else ([], WaitOutcome.done response)

theorem pollLoop_retry_step (url : String) (d : Nat) (r : Response)
    (rest : List Response) (h : isRetryPoll r = true) :
    pollLoop url d (r :: rest) =
      ([Event.sleepFor d, Event.pollGet ⟨url, [], true, false⟩] ++
        (pollLoop url d rest).1, (pollLoop url d rest).2) := by
  rw [isRetryPoll, Bool.and_eq_true] at h
  obtain ⟨h1, h2⟩ := h
  have hmem : r.status_code ∈ OK_STATUSES := of_decide_eq_true h1
  have hwr : wrapClassify r = WrapResult.ok r := by
    unfold wrapClassify
    rw [if_pos hmem]
  simp only [pollLoop, hwr]
  by_cases hc : r.status_code = 200
  · simp only [hc, beq_self_eq_true, if_true] at h2 ⊢
    cases hst : getField r "status" with
    | none =>
      rw [hst] at h2
      exact Bool.noConfusion h2
    | some s =>
      rw [hst] at h2
      have h2s : decide (s ≠ "success") = true := h2
      have hsne : (s == "success") = false := by
        rw [beq_eq_false_iff_ne]
        exact of_decide_eq_true h2s
      simp [hsne]
  · have hc2 : (r.status_code == 200) = false := by
      rw [beq_eq_false_iff_ne]
      exact hc
    simp [hc2]

theorem pollLoop_success_step (url : String) (d : Nat) (succ : Response)
    (rest : List Response) (hs : isSuccessPoll succ = true) :
    pollLoop url d (succ :: rest) =
      ([Event.sleepFor d, Event.pollGet ⟨url, [], true, false⟩],
       WaitOutcome.done succ) := by
  rw [isSuccessPoll, Bool.and_eq_true] at hs
  obtain ⟨h1, h2⟩ := hs
  have hc : succ.status_code = 200 := by simpa using h1
  have hst : getField succ "status" = some "success" := by simpa using h2
  have hwr : wrapClassify succ = WrapResult.ok succ := by
    unfold wrapClassify
    rw [if_pos (by rw [hc]; decide : succ.status_code ∈ OK_STATUSES)]
  simp [pollLoop, hwr, hc, hst]

theorem pollLoop_error_step (url : String) (d : Nat) (bad : Response)
    (rest : List Response) (k : ErrorKind) (msg : String)
    (h : wrapClassify bad = WrapResult.error k msg) :
    pollLoop url d (bad :: rest) =
      ([Event.sleepFor d, Event.pollGet ⟨url, [], true, false⟩],
       WaitOutcome.raised k msg) := by
  simp only [pollLoop, h]

theorem pollLoop_all_retry (url : String) (d : Nat) (polls : List Response)
    (h : ∀ r ∈ polls, isRetryPoll r = true) :
    pollLoop url d polls =
      (List.flatten (List.replicate polls.length
        [Event.sleepFor d, Event.pollGet ⟨url, [], true, false⟩]),
       WaitOutcome.looping) := by
  induction polls with
  | nil => rfl
  | cons r rest ih =>
    rw [pollLoop_retry_step url d r rest (h r (List.mem_cons_self r rest)),
      ih (fun x hx => h x (List.mem_cons_of_mem r hx))]
    simp [List.replicate_succ]

theorem pollLoop_success_at_end (url : String) (d : Nat)
    (nonsucc : List Response) (succ : Response)
    (hns : ∀ r ∈ nonsucc, isRetryPoll r = true)
    (hs : isSuccessPoll succ = true) :
    pollLoop url d (nonsucc ++ [succ]) =
      (List.flatten (List.replicate (nonsucc.length + 1)
        [Event.sleepFor d, Event.pollGet ⟨url, [], true, false⟩]),
       WaitOutcome.done succ) := by
  induction nonsucc with
  | nil => simpa using pollLoop_success_step url d succ [] hs
  | cons r rest ih =>
    rw [List.cons_append,
      pollLoop_retry_step url d r (rest ++ [succ]) (hns r (List.mem_cons_self r rest)),
      ih (fun x hx => hns x (List.mem_cons_of_mem r hx))]
    simp [List.replicate_succ]

theorem pollLoop_raises (url : String) (d : Nat)
    (nonsucc : List Response) (bad : Response) (rest2 : List Response)
    (k : ErrorKind) (msg : String)
    (hns : ∀ r ∈ nonsucc, isRetryPoll r = true)
    (hb : wrapClassify bad = WrapResult.error k msg) :
    pollLoop url d (nonsucc ++ bad :: rest2) =
      (List.flatten (List.replicate (nonsucc.length + 1)
        [Event.sleepFor d, Event.pollGet ⟨url, [], true, false⟩]),
       WaitOutcome.raised k msg) := by
  induction nonsucc with
  | nil => simpa using pollLoop_error_step url d bad rest2 k msg hb
  | cons r rest ih =>
    rw [List.cons_append,
      pollLoop_retry_step url d r (rest ++ bad :: rest2) (hns r (List.mem_cons_self r rest)),
      ih (fun x hx => hns x (List.mem_cons_of_mem r hx))]
    simp [List.replicate_succ]

theorem pollLoop_sleep_durations (url : String) (d : Nat) (polls : List Response) :
    ∀ n, Event.sleepFor n ∈ (pollLoop url d polls).1 → n = d := by
  induction polls with
  | nil => intro n hn; simp [pollLoop] at hn
  | cons r rest ih =>
    intro n hn
    simp only [pollLoop] at hn
    split at hn
    · simp at hn; exact hn
    · simp at hn; exact hn
    · split at hn
      · split at hn
        · simp at hn; exact hn
        · split at hn
          · simp at hn; exact hn
          · simp at hn
            rcases hn with hn | hn
            · exact hn
            · exact ih n hn
      · simp at hn
        rcases hn with hn | hn
        · exact hn
        · exact ih n hn

/-! ### Theorems: poller (C3, C8, C9) -/

/-- C3 counterexample: a poll sequence of one non-success result (HTTP 500)
followed by a success poll does not block until the success poll — the
in-loop GET goes through the executor, which raises InternalServerError
after the first poll, ending the wait instead of sleeping and polling
again. -/
theorem c3_counterexample :
    waitingForFinish ⟨202, [("href", "u")]⟩ true Option.none
        [⟨500, [("message", "m")]⟩, ⟨200, [("status", "success")]⟩] =
      ([Event.sleepFor 3, Event.pollGet ⟨"u", [], true, false⟩],
       WaitOutcome.raised ErrorKind.InternalServerError "m")
    ∧ WaitOutcome.raised ErrorKind.InternalServerError "m" ≠
        WaitOutcome.done ⟨200, [("status", "success")]⟩ := by
  decide

/-- C3 (amended): given a 202 response whose body `href` is `X` and
`wait_for_finish` true, the poller repeatedly sleeps and issues an
authenticated GET against X; for any sequence of polls whose status the
executor passes through (in {200, 201, 202, 204}) but that are not
(200 with body `status == "success"`) — each causing another
sleep-and-poll cycle — followed by a success poll, the call blocks until
that success poll and returns that final envelope; with only such retry
polls it keeps polling with no timeout or maximum retry count; and a poll
the executor classifies as an error raises that error out of the loop,
ending the wait.  Each poll request is the polling URL used as-is with the
`OAuth` header. -/
theorem c3_poller_amended (resp succ : Response) (X : String)
    (nonsucc : List Response) (sleep : Option Nat)
    (h202 : resp.status_code = 202)
    (hhref : getField resp "href" = some X)
    (hns : ∀ r ∈ nonsucc, isRetryPoll r = true)
    (hs : isSuccessPoll succ = true) :
    (waitingForFinish resp true sleep (nonsucc ++ [succ]) =
      (List.flatten (List.replicate (nonsucc.length + 1)
        [Event.sleepFor (effectiveSleep sleep),
         Event.pollGet ⟨X, [], true, false⟩]),
       WaitOutcome.done succ))
    ∧ (waitingForFinish resp true sleep nonsucc).2 = WaitOutcome.looping
    ∧ (∀ k msg bad rest2, wrapClassify bad = WrapResult.error k msg →
        waitingForFinish resp true sleep (nonsucc ++ bad :: rest2) =
          (List.flatten (List.replicate (nonsucc.length + 1)
            [Event.sleepFor (effectiveSleep sleep),
             Event.pollGet ⟨X, [], true, false⟩]),
           WaitOutcome.raised k msg))
    ∧ (∀ token, buildRequest token ⟨X, [], true, false⟩ =
        (X, [("Authorization", "OAuth " ++ token)])) := by
  have hw : ∀ polls, waitingForFinish resp true sleep polls =
      pollLoop X (effectiveSleep sleep) polls := by
    intro polls
    simp [waitingForFinish, h202, hhref]
  refine ⟨?_, ?_, ?_, ?_⟩
  · rw [hw]
    exact pollLoop_success_at_end X (effectiveSleep sleep) nonsucc succ hns hs
  · rw [hw, pollLoop_all_retry X (effectiveSleep sleep) nonsucc hns]
  · intro k msg bad rest2 hb
    rw [hw]
    exact pollLoop_raises X (effectiveSleep sleep) nonsucc bad rest2 k msg hns hb
  · intro token
    simp [buildRequest, setKey]

theorem c3_poller_amended_witness :
    waitingForFinish ⟨202, [("href", "u")]⟩ true Option.none
      ([⟨202, [("status", "in-progress")]⟩] ++ [⟨200, [("status", "success")]⟩]) =
      (List.flatten (List.replicate 2
        [Event.sleepFor (effectiveSleep Option.none),
         Event.pollGet ⟨"u", [], true, false⟩]),
       WaitOutcome.done ⟨200, [("status", "success")]⟩) :=
  (c3_poller_amended ⟨202, [("href", "u")]⟩
    ⟨200, [("status", "success")]⟩ "u" [⟨202, [("status", "in-progress")]⟩]
    Option.none rfl rfl (by decide) (by decide)).1

/-- C8: for every envelope, if `wait_for_finish` is false or the status code
is not 202, the original envelope is returned unchanged immediately, with no
sleep and no poll request issued, regardless of body content. -/
theorem c8_no_wait_returns_unchanged (resp : Response) (wait : Bool)
    (sleep : Option Nat) (polls : List Response)
    (h : wait = false ∨ resp.status_code ≠ 202) :
    waitingForFinish resp wait sleep polls = ([], WaitOutcome.done resp) := by
  rcases h with h | h
  · simp [waitingForFinish, h]
  · simp [waitingForFinish, h]

theorem c8_no_wait_returns_unchanged_witness :
    waitingForFinish ⟨202, [("href", "u")]⟩ false Option.none
      [⟨200, [("status", "success")]⟩] =
      ([], WaitOutcome.done ⟨202, [("href", "u")]⟩) :=
  c8_no_wait_returns_unchanged ⟨202, [("href", "u")]⟩ false Option.none
    [⟨200, [("status", "success")]⟩] (Or.inl rfl)

/-- C9 counterexample: with the override interval `0` supplied, the loop
sleeps for the default 3 time-units, not the supplied 0 — Python's
`sleep or self._SLEEP` discards a falsy override. -/
theorem c9_counterexample :
    (waitingForFinish ⟨202, [("href", "u")]⟩ true (some 0)
        [⟨200, [("status", "success")]⟩]).1 =
      [Event.sleepFor 3, Event.pollGet ⟨"u", [], true, false⟩]
    ∧ Event.sleepFor 0 ∉ (waitingForFinish ⟨202, [("href", "u")]⟩ true (some 0)
        [⟨200, [("status", "success")]⟩]).1 := by
  decide

/-- C9 (amended): each poll-loop iteration sleeps for the default 3
time-units when no override or a falsy (zero) override is supplied, and for
the supplied override interval whenever a nonzero override is supplied. -/
theorem c9_sleep_interval_amended (resp : Response) (sleep : Option Nat)
    (polls : List Response) (X : String)
    (h202 : resp.status_code = 202)
    (hhref : getField resp "href" = some X) :
    ((sleep = Option.none ∨ sleep = some 0) →
      ∀ n, Event.sleepFor n ∈ (waitingForFinish resp true sleep polls).1 → n = 3)
    ∧ (∀ s, sleep = some s → s ≠ 0 →
      ∀ n, Event.sleepFor n ∈ (waitingForFinish resp true sleep polls).1 → n = s) := by
  have hw : (waitingForFinish resp true sleep polls).1 =
      (pollLoop X (effectiveSleep sleep) polls).1 := by
    simp [waitingForFinish, h202, hhref]
  constructor
  · rintro (hsl | hsl) n hn <;> rw [hw] at hn
    · have := pollLoop_sleep_durations X (effectiveSleep sleep) polls n hn
      rw [this, hsl]; rfl
    · have := pollLoop_sleep_durations X (effectiveSleep sleep) polls n hn
      rw [this, hsl]; rfl
  · intro s hsl hs0 n hn
    rw [hw] at hn
    have := pollLoop_sleep_durations X (effectiveSleep sleep) polls n hn
    rw [this, hsl]
    simp [effectiveSleep, hs0]

theorem c9_sleep_interval_amended_witness :
    ((some 5 = Option.none ∨ some 5 = some 0) →
      ∀ n, Event.sleepFor n ∈ (waitingForFinish ⟨202, [("href", "u")]⟩ true (some 5)
        [⟨200, [("status", "success")]⟩]).1 → n = 3)
    ∧ (∀ s, some 5 = some s → s ≠ 0 →
      ∀ n, Event.sleepFor n ∈ (waitingForFinish ⟨202, [("href", "u")]⟩ true (some 5)
        [⟨200, [("status", "success")]⟩]).1 → n = s) :=
  c9_sleep_interval_amended ⟨202, [("href", "u")]⟩ (some 5)
    [⟨200, [("status", "success")]⟩] "u" rfl rfl

/-! ### Single-file upload (`YandexDisk.upload_file`, `YandexDisk._is_same_file`) -/

/-- A Python file object opened in binary mode: its byte content and the
current read position. -/
structure FileObject where
  content : List Nat
  pos : Nat
deriving DecidableEq

/-- `fileobject.read()`: returns everything from the current position to the
end and leaves the position at the end of the file. -/
def fread (f : FileObject) : List Nat × FileObject :=
  (f.content.drop f.pos, { f with pos := f.content.length })

/-- Oracle for the `get_meta_info(path=path, fields=['md5'])` call inside
`_is_same_file`: either the resource's stored `md5` field, or the call raised
`NotFoundError` (the only error class the code catches there). -/
inductive MetaResult where
  | found (md5 : String)
  | notFound
deriving DecidableEq

/-- `YandexDisk._is_same_file` from `client.py`: fetch remote metadata
restricted to the `md5` field; on `NotFoundError` return false (without
touching the file object); otherwise hash `fileobject.read()` with `md5hex`
(standing for `hashlib.md5(...).hexdigest()`) and compare with the remote
hash.  Returns the verdict and the file object after any read. -/
def is_same_file (md5hex : List Nat → String) (f : FileObject)
    (meta : MetaResult) : Bool × FileObject :=
  match meta with
  | MetaResult.notFound => (false, f)
  | MetaResult.found m =>
    let r := fread f
    ((m = md5hex r.1 : Bool), r.2)

/-- The requester calls `upload_file` makes, in order: the metadata lookup
from `_is_same_file`, the GET for an upload URL, and the PUT of the bytes the
transport reads from the file object at its current position. -/
inductive Call where
  | getMetaInfo (path : String) (fields : List String)
  | getUploadUrl (path : String) (overwrite : Bool)
  | putContent (url : String) (bytes : List Nat)
deriving DecidableEq

/-- `YandexDisk.upload_file` from `client.py`: when `overwrite` and
`skip_exists` both hold, first run `_is_same_file` (its metadata lookup
answered by the oracle `meta`) and return true with no upload if it says the
file is already there; otherwise GET the upload URL (the href answered by the
oracle `href`) and PUT whatever remains of the file object.  Returns the
result and the ordered list of requester calls. -/
def upload_file (md5hex : List Nat → String) (f : FileObject) (path : String)
    (overwrite skip_exists : Bool) (meta : MetaResult) (href : String) :
    Bool × List Call :=
  if overwrite && skip_exists then
    let same := is_same_file md5hex f meta
    if same.1 then (true, [Call.getMetaInfo path ["md5"]])
    else
      let b := fread same.2
      (true, [Call.getMetaInfo path ["md5"], Call.getUploadUrl path overwrite,
              Call.putContent href b.1])
  else
    let b := fread f
    (true, [Call.getUploadUrl path overwrite, Call.putContent href b.1])

/-! ### Theorems: skip-if-identical upload (C5) and file-position frame effect (C10) -/

/-- C5: with `overwrite=true` and `skip_exists=true`, the client first fetches
remote metadata restricted to the `md5` field for the destination path; if
that lookup raises NotFound the two-step upload (GET upload-URL then PUT
content) proceeds; if the remote hash equals the digest of the local file's
content, no upload call occurs and the method returns true. -/
theorem c5_skip_if_identical (md5hex : List Nat → String) (f : FileObject)
    (path href : String) (meta : MetaResult) (h0 : f.pos = 0) :
    (meta = MetaResult.notFound →
      upload_file md5hex f path true true meta href =
        (true, [Call.getMetaInfo path ["md5"], Call.getUploadUrl path true,
                Call.putContent href f.content]))
    ∧ (∀ m, meta = MetaResult.found m → m = md5hex f.content →
        upload_file md5hex f path true true meta href =
          (true, [Call.getMetaInfo path ["md5"]])) := by
  constructor
  · intro hm
    subst hm
    simp [upload_file, is_same_file, fread, h0]
  · intro m hm hmd5
    subst hm
    simp [upload_file, is_same_file, fread, h0, hmd5]

theorem c5_skip_if_identical_witness :
    ((MetaResult.found "aa" : MetaResult) = MetaResult.notFound →
      upload_file (fun _ => "aa") ⟨[7, 8], 0⟩ "/p" true true
          (MetaResult.found "aa") "u" =
        (true, [Call.getMetaInfo "/p" ["md5"], Call.getUploadUrl "/p" true,
                Call.putContent "u" [7, 8]]))
    ∧ (∀ m, (MetaResult.found "aa" : MetaResult) = MetaResult.found m →
        m = (fun (_ : List Nat) => "aa") [7, 8] →
        upload_file (fun _ => "aa") ⟨[7, 8], 0⟩ "/p" true true
            (MetaResult.found "aa") "u" =
          (true, [Call.getMetaInfo "/p" ["md5"]])) :=
  c5_skip_if_identical (fun _ => "aa") ⟨[7, 8], 0⟩ "/p" "u"
    (MetaResult.found "aa") rfl

/-- C10: with `overwrite=true`, `skip_exists=true`, a remote hash differing
from the local digest, and the file at position 0: the hash check reads the
file object to its end, and the subsequent PUT sends the same file object
without resetting its position, so the transferred content is empty. -/
theorem c10_hash_check_consumes_file (md5hex : List Nat → String)
    (f : FileObject) (path href m : String)
    (h0 : f.pos = 0) (hne : m ≠ md5hex f.content) :
    (is_same_file md5hex f (MetaResult.found m)).2.pos = f.content.length
    ∧ upload_file md5hex f path true true (MetaResult.found m) href =
        (true, [Call.getMetaInfo path ["md5"], Call.getUploadUrl path true,
                Call.putContent href []]) := by
  constructor
  · simp [is_same_file, fread]
  · simp [upload_file, is_same_file, fread, h0, hne]

theorem c10_hash_check_consumes_file_witness :
    (is_same_file (fun _ => "aa") ⟨[7, 8], 0⟩ (MetaResult.found "bb")).2.pos =
      ([7, 8] : List Nat).length
    ∧ upload_file (fun _ => "aa") ⟨[7, 8], 0⟩ "/p" true true
        (MetaResult.found "bb") "u" =
        (true, [Call.getMetaInfo "/p" ["md5"], Call.getUploadUrl "/p" true,
                Call.putContent "u" []]) :=
  c10_hash_check_consumes_file (fun _ => "aa") ⟨[7, 8], 0⟩ "/p" "u" "bb"
    rfl (by decide)

/-! ### Directory upload (`YandexDisk.upload_directory`, `_iter_directory_content`) -/

/-- Python `needle in haystack` on char lists: `needle` occurs contiguously. -/
def strContainsAux (needle : List Char) : List Char → Bool
  | [] => decide (needle = [])
  | c :: rest => List.isPrefixOf needle (c :: rest) || strContainsAux needle rest

/-- Python `needle in haystack` for strings. -/
def strContains (haystack needle : String) : Bool :=
  strContainsAux needle.data haystack.data

/-- The localized server message fragment `upload_directory` looks for to
recognize a folder-already-exists `DiskPathError`. -/
def existsMsgRu : String := "уже существует папка с таким именем"

/-- A local directory tree node: a file with byte content, or a directory
with an ordered list of children (the order `glob.glob` returns them in). -/
inductive FSNode where
  | file (name : String) (content : List Nat)
  | dir (name : String) (children : List FSNode)

/-- `os.path.join(a, b)` for a relative `b` and an `a` without trailing
slash (empty `a` meaning the traversal root). -/
def joinPath (a b : String) : String :=
  if a = "" then b else a ++ "/" ++ b

mutual
/-- One node of `_iter_directory_content`'s generator output: yield the node
itself (is-directory flag, related path, file content), then recurse into its
children — the source's `yield` followed by `yield from`.  The related path is
the regex `re.sub(r'{start_path}\/?\*?', '', path_item)` strip of the start
path, which for these trees is the path relative to the root. -/
def iterNode (rel : String) : FSNode → List (Bool × String × List Nat)
  | FSNode.file n c => [(false, joinPath rel n, c)]
  | FSNode.dir n cs =>
    (true, joinPath rel n, []) :: iterChildren (joinPath rel n) cs

/-- Children of a directory, in `glob` order. -/
def iterChildren (rel : String) : List FSNode → List (Bool × String × List Nat)
  | [] => []
  | c :: cs => iterNode rel c ++ iterChildren rel cs
end

/-- `YandexDisk._iter_directory_content(local_path)` from `client.py`: the
root itself is yielded first with an empty related path (the regex strips the
whole start path), then every descendant in pre-order. -/
def iterDirectoryContent : FSNode → List (Bool × String × List Nat)
  | FSNode.file _ c => [(false, "", c)]
  | FSNode.dir _ cs => (true, "", []) :: iterChildren "" cs

/-- Oracle outcome of one `create_folder(path=disk_path)` call: success, or a
raised error of some kind with the server's message. -/
inductive CFResult where
  | ok
  | err (k : ErrorKind) (msg : String)
deriving DecidableEq

/-- A remote operation issued by `upload_directory`: a folder creation, or a
delegation to `upload_file` with the file's content and the flags. -/
inductive DirAction where
  | createFolder (path : String)
  | uploadFile (path : String) (content : List Nat) (overwrite skip_exists : Bool)
deriving DecidableEq

/-- The body of `upload_directory`'s `for` loop over the generator entries:
skip entries with an empty related path; for a directory, call
`create_folder` (outcome given by the oracle `cf`) and swallow a
`DiskPathError` whose message contains the folder-already-exists fragment,
re-raising anything else; for a file, delegate to `upload_file`.  Returns the
ordered actions issued and the raised error, if any. -/
def uploadDirGo (cf : String → CFResult) (base : String)
    (ov sk : Bool) : List (Bool × String × List Nat) →
    List DirAction × Option (ErrorKind × String)
  | [] => ([], Option.none)
  | (is_dir, rel, content) :: rest =>
    if rel = "" then uploadDirGo cf base ov sk rest
    else
      let disk_path := joinPath base rel
      if is_dir then
        let next := uploadDirGo cf base ov sk rest
        match cf disk_path with
        | CFResult.ok => (DirAction.createFolder disk_path :: next.1, next.2)
        | CFResult.err k msg =>
          if k = ErrorKind.DiskPathConflict then
            if strContains msg existsMsgRu then
              (DirAction.createFolder disk_path :: next.1, next.2)
            else ([DirAction.createFolder disk_path], some (k, msg))
          else ([DirAction.createFolder disk_path], some (k, msg))
      else
        let next := uploadDirGo cf base ov sk rest
        (DirAction.uploadFile disk_path content ov sk :: next.1, next.2)

/-- `YandexDisk.upload_directory(local_path, path, overwrite, skip_exists)`
from `client.py`, over the modelled local tree `root`. -/
def upload_directory (cf : String → CFResult) (root : FSNode) (path : String)
    (ov sk : Bool) : List DirAction × Option (ErrorKind × String) :=
  uploadDirGo cf path ov sk (iterDirectoryContent root)

/-! ### Theorem: directory upload (C6) -/

/-- C6: uploading the tree `root/a.txt`, `root/sub/b.txt` to `/dest` issues
exactly one folder-create for `/dest/sub` and one file-upload each for
`/dest/a.txt` and `/dest/sub/b.txt`, the folder-create before its contents'
upload; a `DiskPathError` from folder creation whose message contains the
folder-already-exists fragment is ignored, and any other error from folder
creation is re-raised, stopping the walk. -/
theorem c6_directory_upload (ca cb : List Nat) (ov sk : Bool)
    (cf : String → CFResult) :
    (cf "/dest/sub" = CFResult.ok →
      upload_directory cf
          (FSNode.dir "root" [FSNode.file "a.txt" ca,
            FSNode.dir "sub" [FSNode.file "b.txt" cb]]) "/dest" ov sk =
        ([DirAction.uploadFile "/dest/a.txt" ca ov sk,
          DirAction.createFolder "/dest/sub",
          DirAction.uploadFile "/dest/sub/b.txt" cb ov sk], Option.none))
    ∧ (∀ msg, cf "/dest/sub" = CFResult.err ErrorKind.DiskPathConflict msg →
        strContains msg existsMsgRu = true →
        upload_directory cf
            (FSNode.dir "root" [FSNode.file "a.txt" ca,
              FSNode.dir "sub" [FSNode.file "b.txt" cb]]) "/dest" ov sk =
          ([DirAction.uploadFile "/dest/a.txt" ca ov sk,
            DirAction.createFolder "/dest/sub",
            DirAction.uploadFile "/dest/sub/b.txt" cb ov sk], Option.none))
    ∧ (∀ k msg, cf "/dest/sub" = CFResult.err k msg →
        (k = ErrorKind.DiskPathConflict → strContains msg existsMsgRu = false) →
        upload_directory cf
            (FSNode.dir "root" [FSNode.file "a.txt" ca,
              FSNode.dir "sub" [FSNode.file "b.txt" cb]]) "/dest" ov sk =
          ([DirAction.uploadFile "/dest/a.txt" ca ov sk,
            DirAction.createFolder "/dest/sub"], some (k, msg))) := by
  refine ⟨?_, ?_, ?_⟩
  · intro h
    simp [upload_directory, iterDirectoryContent, iterChildren, iterNode,
      uploadDirGo, joinPath, h]
  · intro msg h hmsg
    simp [upload_directory, iterDirectoryContent, iterChildren, iterNode,
      uploadDirGo, joinPath, h, hmsg]
  · intro k msg h hmsg
    by_cases hk : k = ErrorKind.DiskPathConflict
    · simp [upload_directory, iterDirectoryContent, iterChildren, iterNode,
        uploadDirGo, joinPath, h, hk, hmsg hk]
    · simp [upload_directory, iterDirectoryContent, iterChildren, iterNode,
        uploadDirGo, joinPath, h, hk]

theorem c6_directory_upload_witness :
    upload_directory (fun _ => CFResult.ok)
        (FSNode.dir "root" [FSNode.file "a.txt" [1],
          FSNode.dir "sub" [FSNode.file "b.txt" [2]]]) "/dest" true true =
      ([DirAction.uploadFile "/dest/a.txt" [1] true true,
        DirAction.createFolder "/dest/sub",
        DirAction.uploadFile "/dest/sub/b.txt" [2] true true], Option.none) :=
  (c6_directory_upload [1] [2] true true (fun _ => CFResult.ok)).1 rfl

/-! ### Query-string serialization (`urllib.parse.urlencode` call sites) -/

/-- Uppercase hex digit, as `urllib.parse.quote` emits in `%XX` escapes. -/
def hexDigit (n : Nat) : Char :=
  if n < 10 then Char.ofNat (48 + n) else Char.ofNat (55 + n)

/-- The characters `urllib.parse.quote_plus` leaves unescaped (ASCII letters,
digits, and `_.-~`). -/
def isSafeChar (c : Char) : Bool :=
  c.isAlphanum || c = '-' || c = '_' || c = '.' || c = '~'

/-- `quote_plus` on one character: safe characters pass through, a space
becomes `+`, anything else becomes a `%XX` escape (ASCII model). -/
def quoteChar (c : Char) : List Char :=
  if isSafeChar c then [c]
  else if c = ' ' then ['+']
  else ['%', hexDigit (c.toNat / 16 % 16), hexDigit (c.toNat % 16)]

/-- `urllib.parse.quote_plus` over a string. -/
def quotePlus (s : String) : String :=
  String.mk (s.data.foldr (fun c acc => quoteChar c ++ acc) [])

/-- A Python value placed in a params dict by the façade methods: `None`, a
string, or a bool. -/
inductive PyVal where
  | none
  | str (s : String)
  | bool (b : Bool)
deriving DecidableEq

/-- Python `str(v)` for the values above: `str(None) = "None"`,
`str(True) = "True"`, `str(False) = "False"`. -/
def pyStr : PyVal → String
  | PyVal.none => "None"
  | PyVal.str s => s
  | PyVal.bool b => if b then "True" else "False"

/-- `urllib.parse.urlencode(d, doseq=False)` key/value pairs: every dict
entry is kept, with both the key and `str(value)` passed through
`quote_plus` — `None` values are serialized as the literal text `None`. -/
def urlencodePairs (params : List (String × PyVal)) : List (String × String) :=
  params.map (fun kv => (quotePlus kv.1, quotePlus (pyStr kv.2)))

/-- `urllib.parse.urlencode(d, doseq=False)`: the pairs joined as
`k=v&k=v…`. -/
def urlencode (params : List (String × PyVal)) : String :=
  String.intercalate "&" ((urlencodePairs params).map (fun p => p.1 ++ "=" ++ p.2))

/-- Modelled from the spec: the transport collaborator (the `requests`
library, out of scope per the spec) receives the `params=` mapping from
façade methods such as `get_meta_info` and omits `None`-valued entries from
the serialized query string. -/
def requestsParams (params : List (String × PyVal)) : List (String × String) :=
  params.filterMap (fun kv =>
    match kv.2 with
    | PyVal.none => Option.none
    | v => some (kv.1, pyStr v))

/-- The params dict `YandexDisk.get_meta_info` hands to
`self._requester.get(..., params=params)` (the `path` key is always a
string; the rest default to `None`). -/
def get_meta_info_params (path : String)
    (sort limit offset fields preview_size preview_crop : PyVal) :
    List (String × PyVal) :=
  [("path", PyVal.str path), ("sort", sort), ("limit", limit),
   ("offset", offset), ("fields", fields), ("preview_size", preview_size),
   ("preview_crop", preview_crop)]

/-- The URL `YandexDisk.create_folder` passes to `self._requester.put`:
`'disk/resources/?{}'.format(urlencode({'path': path, 'fields': fields}))`. -/
def create_folder_url (path fields : PyVal) : String :=
  "disk/resources/?" ++ urlencode [("path", path), ("fields", fields)]

/-! ### Theorems: query serialization (C4) -/

/-- C4 counterexample: `create_folder` with `fields=None` serializes the
`None`-valued parameter into the query string as `fields=None` — the claim
that a `None` parameter never appears in the serialized query string fails. -/
theorem c4_counterexample :
    ("fields", "None") ∈
      urlencodePairs [("path", PyVal.str "/dest"), ("fields", PyVal.none)]
    ∧ create_folder_url (PyVal.str "/dest") PyVal.none =
        "disk/resources/?path=%2Fdest&fields=None" := by
  constructor
  · decide
  · rfl

/-- C4 (amended): parameters passed via the transport's `params=` mapping
(e.g. `get_meta_info`) are dropped when `None`, but façade methods that
pre-serialize their query with `urlencode` (e.g. `create_folder`,
`copy_resource`) serialize a `None`-valued parameter as the literal text
`None` under its key. -/
theorem c4_none_serialization (params : List (String × PyVal)) (k : String)
    (hall : ∀ v, (k, v) ∈ params → v = PyVal.none) :
    (∀ kv ∈ requestsParams params, kv.1 ≠ k)
    ∧ ((k, PyVal.none) ∈ params →
        (quotePlus k, "None") ∈ urlencodePairs params) := by
  constructor
  · intro kv hkv hk1
    rw [requestsParams, List.mem_filterMap] at hkv
    obtain ⟨⟨a1, v⟩, hmem, hf⟩ := hkv
    cases v with
    | none => simp at hf
    | str s =>
      simp only [Option.some.injEq] at hf
      have ha1 : a1 = k := by rw [← hf] at hk1; exact hk1
      have := hall (PyVal.str s) (ha1 ▸ hmem)
      simp at this
    | bool b =>
      simp only [Option.some.injEq] at hf
      have ha1 : a1 = k := by rw [← hf] at hk1; exact hk1
      have := hall (PyVal.bool b) (ha1 ▸ hmem)
      simp at this
  · intro hmem
    have h := List.mem_map_of_mem
      (fun kv : String × PyVal => (quotePlus kv.1, quotePlus (pyStr kv.2))) hmem
    simpa [urlencodePairs] using h

theorem c4_none_serialization_witness :
    (∀ kv ∈ requestsParams (get_meta_info_params "/p" PyVal.none PyVal.none
        PyVal.none PyVal.none PyVal.none PyVal.none), kv.1 ≠ "sort")
    ∧ (("sort", PyVal.none) ∈ get_meta_info_params "/p" PyVal.none PyVal.none
        PyVal.none PyVal.none PyVal.none PyVal.none →
        (quotePlus "sort", "None") ∈ urlencodePairs (get_meta_info_params "/p"
          PyVal.none PyVal.none PyVal.none PyVal.none PyVal.none PyVal.none)) :=
  c4_none_serialization
    (get_meta_info_params "/p" PyVal.none PyVal.none PyVal.none PyVal.none
      PyVal.none PyVal.none) "sort"
    (by intro v hv; simp [get_meta_info_params] at hv; exact hv)

end YadiskApi
